import Mathlib

/-!
# Verification of the L2-Orderbook-Analysis client core

Shallow embedding of the client-side connection/state-synchronization layer
of the `CVsiouy/L2-Orderbook-Analysis` repository (`src/App.jsx` and the
three presentation components), together with theorems settling the spec
claims about it.

JS numbers are modelled as rationals (`ℚ`), with `Option ℚ` standing for a
number that may be NaN (`none` = NaN; note `typeof NaN === 'number'` in JS,
so a NaN is still a numeric value). Event payloads are modelled as the
fields the handlers actually read.
-/

/-- A JS value stored in a parameter field: either a string or a number
(possibly NaN, represented by `num none`). -/
inductive Value where
  | str (s : String)
  | num (q : Option ℚ)
deriving DecidableEq, Repr

/-- The longest digit prefix of a character list, together with the rest. -/
def takeDigits : List Char → List Char × List Char
  | [] => ([], [])
  | c :: rest =>
    if c.isDigit then
      let (d, r) := takeDigits rest
      (c :: d, r)
    else ([], c :: rest)

/-- Decimal digits to a natural number, most significant first. -/
def digitsToNat (ds : List Char) : ℕ :=
  ds.foldl (fun acc c => 10 * acc + (c.toNat - 48)) 0

/-- An unsigned decimal numeral (integer part, optional fractional part);
`none` when no digit is present (NaN). Trailing garbage is ignored, as JS
parseFloat does. -/
def parseUnsigned (cs : List Char) : Option ℚ :=
  let (ip, rest) := takeDigits cs
  match rest with
  | '.' :: r =>
    let (fp, _) := takeDigits r
    if ip.isEmpty && fp.isEmpty then none
    else some ((digitsToNat ip : ℚ) + (digitsToNat fp : ℚ) / ((10 : ℚ) ^ fp.length))
  | _ => if ip.isEmpty then none else some ((digitsToNat ip : ℚ))

/-- JS `parseFloat` restricted to plain decimal numerals: skips leading
whitespace, reads an optional sign and the longest numeric prefix, and
returns `none` (NaN) when no digits can be read. -/
def parseFloat (s : String) : Option ℚ :=
  let cs := s.data.dropWhile Char.isWhitespace
  match cs with
  | '-' :: r => (parseUnsigned r).map (fun q => -q)
  | '+' :: r => parseUnsigned r
  | _ => parseUnsigned cs

/-- Simulation parameters, from the `useState` initializer in `App.jsx`
(fields `exchange`, `symbol`, `order_type`, `quantity`, `volatility`,
`fee_tier`). Each field holds a JS value, so that the typing invariant
(numbers vs strings) is a statement, not a typing artifact. -/
structure Params where
  exchange : Value
  symbol : Value
  order_type : Value
  quantity : Value
  volatility : Value
  fee_tier : Value
deriving DecidableEq, Repr

/-- The initial parameters from `App.jsx` lines 10-17. -/
def initParams : Params :=
  { exchange := .str "OKX"
    symbol := .str "BTC-USDT-SWAP"
    order_type := .str "market"
    quantity := .num (some 100)
    volatility := .num (some (3 / 10))
    fee_tier := .str "VIP0" }

/-- An orderbook snapshot payload: only `symbol`, `bids` and `asks` are ever
read by this client, and the handlers tolerate absent `bids`/`asks`
(hence `Option`); individual levels are opaque. -/
structure OrderbookData where
  symbol : String
  bids : Option (List String)
  asks : Option (List String)
deriving DecidableEq, Repr

/-- The numeric bundle read by `OutputPanel.jsx` from a successful
analytics payload. -/
structure AnalyticsBundle where
  slippage_bps : ℚ
  slippage_cost : ℚ
  fees_amount : ℚ
  fees_weighted_rate : ℚ
  market_impact_total_bps : ℚ
  market_impact_cost : ℚ
  net_cost_bps : ℚ
  net_cost_amount : ℚ
  maker_ratio : ℚ
  taker_ratio : ℚ
  processing_time_ms : ℚ
deriving DecidableEq, Repr

/-- An analytics payload: either an object with a truthy `error` field, or
the structured bundle (`OutputPanel.jsx` checks `analyticsResult.error`
first). -/
inductive AnalyticsResult where
  | err (msg : String)
  | result (b : AnalyticsBundle)
deriving DecidableEq, Repr

/-- The five React state slices of `App` (`App.jsx` lines 10-23); the
`socket` handle itself is kept outside the state model. `connected` is the
boolean React state, `error` the nullable error-message string. -/
structure AppState where
  params : Params
  orderbook : Option OrderbookData
  analyticsResult : Option AnalyticsResult
  connected : Bool
  error : Option String
deriving DecidableEq, Repr

/-- The initial React state: default params, no orderbook, no analytics,
not connected, no error. -/
def initState : AppState :=
  { params := initParams
    orderbook := none
    analyticsResult := none
    connected := false
    error := none }

/-- The inbound events the Reconciler subscribes to (`App.jsx` lines
41-78), with the payload fields the handlers read: `connect_error` carries
an error object (only logged — modelled by its message), `connection_status`
carries `status.connected`, `error` carries `errorData.message`,
`parameter_update` carries a full parameters object. -/
inductive InEvent where
  | connect
  | disconnect
  | connect_error (err : String)
  | orderbook_update (data : OrderbookData)
  | analytics_update (data : AnalyticsResult)
  | connection_status (connected : Bool)
  | error (message : String)
  | parameter_update (updatedParams : Params)
deriving DecidableEq, Repr

/-- One inbound event folded into the state, exactly the eight `socket.on`
handlers of `App.jsx` lines 41-78. Note that the `connect_error` handler
stores the fixed string `'WebSocket connection failed'` and never reads
`err` beyond logging it. -/
def processEvent (s : AppState) : InEvent → AppState
  | .connect => { s with connected := true, error := none }
  | .disconnect => { s with connected := false }
  | .connect_error _ => { s with error := some "WebSocket connection failed", connected := false }
  | .orderbook_update d => { s with orderbook := some d }
  | .analytics_update d => { s with analyticsResult := some d }
  | .connection_status c => { s with connected := c }
  | .error m => { s with error := some m }
  | .parameter_update p => { s with params := p }

/-- A finite sequence of inbound events folded over a state. -/
def processEvents (s : AppState) (events : List InEvent) : AppState :=
  events.foldl processEvent s

/-- The three-valued connection status of the spec data model. -/
inductive ConnStatus where
  | connected
  | disconnected
  | errored
deriving DecidableEq, Repr

/-- JS truthiness of a nullable string, as tested by `if (error)`:
null and the empty string are falsy, every other string is truthy. -/
def truthy (s : Option String) : Bool :=
  match s with
  | none => false
  | some m => !m.isEmpty

/-- The status class computed by `OrderbookStatus.jsx` `getStatusClass`
from its `error` and `connected` props: a truthy error wins, then the
connected flag. This is the program's only three-valued realization of
the spec's ConnectionStatus enum. -/
def getStatusClass (error : Option String) (connected : Bool) : ConnStatus :=
  if truthy error then .errored
  else if connected then .connected
  else .disconnected

/-- The orderbook info line rendered by `OrderbookStatus.jsx`
`getOrderbookInfo`: `null` when there is no orderbook or the client is not
connected; otherwise the symbol with ask/bid counts, absent `asks`/`bids`
fields counted as zero-length. -/
def getOrderbookInfo (connected : Bool) (orderbook : Option OrderbookData) :
    Option (String × ℕ × ℕ) :=
  match orderbook with
  | none => none
  | some ob =>
    if !connected then none
    else some (ob.symbol, (ob.asks.getD []).length, (ob.bids.getD []).length)

/-- What `OutputPanel.jsx` renders: the waiting card, the inline error
card, or the results card. -/
inductive OutputView where
  | waiting
  | errorCard (msg : String)
  | results (b : AnalyticsBundle)
deriving DecidableEq, Repr

/-- The `OutputPanel.jsx` component as a function of its
`analyticsResult` prop: waiting when null, error card when the payload has
a truthy `error`, results card otherwise. It never reads the connection
state. -/
def renderOutputPanel (a : Option AnalyticsResult) : OutputView :=
  match a with
  | none => .waiting
  | some (.err m) => .errorCard m
  | some (.result b) => .results b

/-- A rendered form control of `InputPanel.jsx`: its `name` attribute and
its `disabled` attribute. -/
structure FormControl where
  name : String
  disabled : Bool
deriving DecidableEq, Repr

/-- The `InputPanel.jsx` component as a function of its `connected` prop:
the six controls (each with `disabled={!connected}`) and whether the
disconnected notice is shown (`{!connected && ...}`). -/
def renderInputPanel (connected : Bool) : List FormControl × Bool :=
  ([⟨"exchange", !connected⟩, ⟨"symbol", !connected⟩, ⟨"order_type", !connected⟩,
    ⟨"quantity", !connected⟩, ⟨"volatility", !connected⟩, ⟨"fee_tier", !connected⟩],
   !connected)

/-- The six field names the `InputPanel.jsx` form controls can put in
`e.target.name`. -/
inductive FieldName where
  | exchange
  | symbol
  | order_type
  | quantity
  | volatility
  | fee_tier
deriving DecidableEq, Repr

/-- `['quantity', 'volatility'].includes(name)` from `App.jsx` line 89. -/
def isNumericField : FieldName → Bool
  | .quantity => true
  | .volatility => true
  | _ => false

/-- The coercion applied by `handleParamChange`: `parseFloat(value)` for
the numeric fields, the raw string otherwise. -/
def coerceValue (name : FieldName) (value : String) : Value :=
  if isNumericField name then .num (parseFloat value) else .str value

/-- The computed-key single-field update `{...prev, [name]: v}`. -/
def setField (p : Params) (name : FieldName) (v : Value) : Params :=
  match name with
  | .exchange => { p with exchange := v }
  | .symbol => { p with symbol := v }
  | .order_type => { p with order_type := v }
  | .quantity => { p with quantity := v }
  | .volatility => { p with volatility := v }
  | .fee_tier => { p with fee_tier := v }

/-- An outbound `parameter_update` emit: a single-key payload
`{ [name]: value }` carrying the raw uncoerced string. -/
structure OutEvent where
  field : FieldName
  value : String
deriving DecidableEq, Repr

/-- `handleParamChange` from `App.jsx` lines 83-98 as a function of the
live socket-connected flag (the emit guard `socket && socket.connected`),
the current params and the control's `name`/`value`: returns the updated
params and the list of emitted outbound events. -/
def handleParamChange (socketConnected : Bool) (p : Params)
    (name : FieldName) (value : String) : Params × List OutEvent :=
  (setField p name (coerceValue name value),
   if socketConnected then [⟨name, value⟩] else [])

/-- The argument `App.jsx` line 27 passes to `io(...)`, as a function of
the deployment environment: the source quotes the env expression, so the
call site is the string literal `'import.meta.env.VITE_SOCKET_URL'` and
the environment is never consulted. -/
def socketUrl (_env : String → Option String) : String :=
  "import.meta.env.VITE_SOCKET_URL"

/-- The boolean the connection-affecting handlers write into `connected`:
`connect` writes true, `disconnect` and `connect_error` write false,
`connection_status` writes its payload; data events do not touch it. -/
def impliedConnected : InEvent → Option Bool
  | .connect => some true
  | .disconnect => some false
  | .connect_error _ => some false
  | .connection_status c => some c
  | _ => none

/-- The connected flag implied by the most recent connection-affecting
event of a sequence (initially false). -/
def lastImpliedConnected (events : List InEvent) : Bool :=
  events.foldl (fun acc e => (impliedConnected e).getD acc) false

/-- Modelled from the spec claim's words (for refutation): the three-valued
status the claim says each connection-affecting event implies — `connect`
implies connected, `disconnect` disconnected, `connect_error` errored,
`connection_status` the value of its payload. -/
def specImpliedStatus : InEvent → Option ConnStatus
  | .connect => some .connected
  | .disconnect => some .disconnected
  | .connect_error _ => some .errored
  | .connection_status c => some (if c then .connected else .disconnected)
  | _ => none

/-- Modelled from the spec claim's words (for refutation): the status
implied by the most recent connection-affecting event of a sequence
(initially disconnected). -/
def specStatusAfter (events : List InEvent) : ConnStatus :=
  events.foldl (fun acc e => (specImpliedStatus e).getD acc) ConnStatus.disconnected

/-- A numeric JS value (a NaN is still numeric in JS). -/
def isNumVal : Value → Bool
  | .num _ => true
  | .str _ => false

/-- A string JS value. -/
def isStrVal : Value → Bool
  | .str _ => true
  | .num _ => false

/-- Decidable well-typedness of a parameters object: `quantity` and
`volatility` hold numbers (possibly NaN), the other four hold strings. -/
def wellTyped (p : Params) : Bool :=
  isNumVal p.quantity && isNumVal p.volatility && isStrVal p.exchange &&
  isStrVal p.symbol && isStrVal p.order_type && isStrVal p.fee_tier

/-- The parameter states reachable from the initial params by any
interleaving of local edits (any field, any raw string, connected or not)
and server-pushed wholesale corrections whose payload respects the §6
interface shape (a well-typed full Parameters object). -/
inductive ParamsReachable : Params → Prop where
  | init : ParamsReachable initParams
  | edit (b : Bool) (name : FieldName) (value : String) (p : Params) :
      ParamsReachable p → ParamsReachable (handleParamChange b p name value).1
  | server (p q : Params) : ParamsReachable p → wellTyped q = true → ParamsReachable q

theorem parseFloat_250 : parseFloat "250" = some 250 := by decide

theorem processEvent_connected (s : AppState) (e : InEvent) :
    (processEvent s e).connected = (impliedConnected e).getD s.connected := by
  cases e <;> rfl

theorem processEvents_connected (events : List InEvent) (s : AppState) :
    (processEvents s events).connected =
      events.foldl (fun acc e => (impliedConnected e).getD acc) s.connected := by
  induction events generalizing s with
  | nil => rfl
  | cons e rest ih =>
    show (processEvents (processEvent s e) rest).connected = _
    rw [ih, processEvent_connected]
    rfl

/-- C1 counterexample: after `connect_error` followed by
`connection_status({connected: true})`, the most recent
connection-affecting event implies `connected`, but the displayed status
is `errored` — the `connection_status` handler writes only the connected
flag and never clears the retained ErrorMessage, so it does not override
an earlier `connect_error` at the three-valued status level. -/
theorem C1_status_counterexample :
    getStatusClass (processEvents initState
        [InEvent.connect_error "boom", InEvent.connection_status true]).error
      (processEvents initState
        [InEvent.connect_error "boom", InEvent.connection_status true]).connected
      = ConnStatus.errored ∧
    specStatusAfter [InEvent.connect_error "boom", InEvent.connection_status true]
      = ConnStatus.connected ∧
    ConnStatus.errored ≠ ConnStatus.connected := by
  decide

/-- C1 (amended): for every finite sequence of inbound events folded over
the initial state, the resulting connected flag equals the boolean implied
by the most recently processed connection-affecting event (`connect` true,
`disconnect` and `connect_error` false, `connection_status` its payload),
regardless of interleaved data events; at this boolean level a
`connection_status` event does override earlier transport events. The
three-valued displayed status does not satisfy the original claim, since
it also reads the retained ErrorMessage. -/
theorem C1_connected_follows_last_conn_event (events : List InEvent) :
    (processEvents initState events).connected = lastImpliedConnected events :=
  processEvents_connected events initState

/-- C2 counterexample: processing `connect_error` with payload message
"boom" stores the fixed string "WebSocket connection failed" — not a value
derived from the payload; two distinct payloads store the same message. -/
theorem C2_message_counterexample :
    (processEvent initState (InEvent.connect_error "boom")).error
      = some "WebSocket connection failed" ∧
    (processEvent initState (InEvent.connect_error "boom")).error ≠ some "boom" ∧
    (processEvent initState (InEvent.connect_error "boom")).error
      = (processEvent initState (InEvent.connect_error "other")).error := by
  decide

/-- C2 (amended): for every error payload and every state — in particular
independent of whether a previous connect had succeeded — processing
`connect_error(err)` sets the connected flag false and ErrorMessage to the
constant "WebSocket connection failed" (the payload is not stored), leaving
params, orderbook and analytics unchanged; the displayed status becomes
errored. -/
theorem C2_connect_error_effect (err : String) (s : AppState) :
    processEvent s (InEvent.connect_error err)
      = { s with connected := false, error := some "WebSocket connection failed" } ∧
    getStatusClass (processEvent s (InEvent.connect_error err)).error
      (processEvent s (InEvent.connect_error err)).connected = ConnStatus.errored :=
  ⟨rfl, rfl⟩

/-- C3: editing the quantity field with raw value "250" while the socket is
connected stores the number 250 in `quantity` (the other five fields
unchanged, as the single-field record update shows) and emits exactly one
outbound `parameter_update` whose payload is the single-key object carrying
the raw string "250", not the coerced number and not the full Parameters
object. -/
theorem C3_edit_quantity_connected (p : Params) :
    (handleParamChange true p FieldName.quantity "250").1
      = { p with quantity := Value.num (some 250) } ∧
    (handleParamChange true p FieldName.quantity "250").2
      = [{ field := FieldName.quantity, value := "250" }] := by
  constructor
  · show setField p FieldName.quantity (coerceValue FieldName.quantity "250") = _
    rw [show coerceValue FieldName.quantity "250" = Value.num (some 250) from by decide]
    rfl
  · rfl

/-- C4 counterexample: after connect, an orderbook update with one bid and
two asks, and a disconnect, the state still retains the snapshot, yet the
status view's orderbook info renders nothing (`getOrderbookInfo` returns
null whenever `connected` is false), instead of displaying the symbol and
bid/ask counts as the claim states. -/
theorem C4_render_counterexample :
    (processEvents initState
        [InEvent.connect,
         InEvent.orderbook_update ⟨"BTC-USDT-SWAP", some ["b1"], some ["a1", "a2"]⟩,
         InEvent.disconnect]).orderbook
      = some ⟨"BTC-USDT-SWAP", some ["b1"], some ["a1", "a2"]⟩ ∧
    getOrderbookInfo
      (processEvents initState
        [InEvent.connect,
         InEvent.orderbook_update ⟨"BTC-USDT-SWAP", some ["b1"], some ["a1", "a2"]⟩,
         InEvent.disconnect]).connected
      (processEvents initState
        [InEvent.connect,
         InEvent.orderbook_update ⟨"BTC-USDT-SWAP", some ["b1"], some ["a1", "a2"]⟩,
         InEvent.disconnect]).orderbook
      = none := by
  decide

/-- C4 (amended): after a disconnect event the retained state still holds
the last-received OrderbookSnapshot and the analytics view still renders
the last-received AnalyticsResult (not the cleared waiting card), but the
status view suppresses the orderbook info line (symbol and bid/ask counts)
while not connected. -/
theorem C4_retention_after_disconnect (s : AppState) (ob : OrderbookData)
    (a : AnalyticsResult) :
    (processEvent { s with orderbook := some ob, analyticsResult := some a }
        InEvent.disconnect).orderbook = some ob ∧
    (processEvent { s with orderbook := some ob, analyticsResult := some a }
        InEvent.disconnect).analyticsResult = some a ∧
    renderOutputPanel (processEvent { s with orderbook := some ob, analyticsResult := some a }
        InEvent.disconnect).analyticsResult = renderOutputPanel (some a) ∧
    renderOutputPanel (processEvent { s with orderbook := some ob, analyticsResult := some a }
        InEvent.disconnect).analyticsResult ≠ OutputView.waiting ∧
    getOrderbookInfo
      (processEvent { s with orderbook := some ob, analyticsResult := some a }
        InEvent.disconnect).connected
      (processEvent { s with orderbook := some ob, analyticsResult := some a }
        InEvent.disconnect).orderbook = none := by
  refine ⟨rfl, rfl, rfl, ?_, rfl⟩
  show renderOutputPanel (some a) ≠ OutputView.waiting
  cases a <;> simp [renderOutputPanel]

/-- C5: the argument of the `io(...)` call is independent of the
deployment environment and equals the string literal
`'import.meta.env.VITE_SOCKET_URL'` — the env expression is quoted in the
source, so the configured VITE_SOCKET_URL value is never used. This
contradicts the repository README, which instructs deployments to set
VITE_SOCKET_URL in a .env file. -/
theorem C5_url_hardcoded :
    (∀ envA envB : String → Option String, socketUrl envA = socketUrl envB) ∧
    socketUrl (fun k => if k = "VITE_SOCKET_URL" then some "http://localhost:5000" else none)
      = "import.meta.env.VITE_SOCKET_URL" ∧
    socketUrl (fun k => if k = "VITE_SOCKET_URL" then some "http://localhost:5000" else none)
      ≠ "http://localhost:5000" := by
  exact ⟨fun _ _ => rfl, rfl, by decide⟩

/-- C6: every parameter state reachable from the initial params by any
interleaving of local edits (any field, any raw value, connected or not)
and server-pushed wholesale corrections that respect the documented
interface shape is well typed: quantity and volatility hold numbers,
the other four fields hold strings. -/
theorem C6_params_well_typed (p : Params) (h : ParamsReachable p) :
    wellTyped p = true := by
  induction h with
  | init => decide
  | edit b name value p hp ih =>
    cases name <;>
      simp_all [handleParamChange, setField, coerceValue, isNumericField,
        wellTyped, isNumVal, isStrVal]
  | server p q hp hq ih => exact hq

/-- Witness for C6: the state after one connected edit of quantity with
raw value "250" is reachable and well typed. -/
theorem C6_params_well_typed_witness :
    wellTyped (handleParamChange true initParams FieldName.quantity "250").1 = true :=
  C6_params_well_typed _
    (ParamsReachable.edit true FieldName.quantity "250" initParams ParamsReachable.init)

/-- C7: for every field name and raw value, an edit made while the socket
is not connected updates local Parameters exactly as the connected edit
does, and emits zero outbound events — nothing is queued. -/
theorem C7_disconnected_edit (p : Params) (name : FieldName) (value : String) :
    (handleParamChange false p name value).1 = (handleParamChange true p name value).1 ∧
    (handleParamChange false p name value).2 = [] :=
  ⟨rfl, rfl⟩

/-- C8 counterexample: in the reachable state after a `connect_error`, a
subsequent `disconnect` leaves the retained ErrorMessage in place, so the
displayed status is errored, not disconnected as the claim states. -/
theorem C8_status_counterexample :
    getStatusClass
      (processEvents initState [InEvent.connect_error "x", InEvent.disconnect]).error
      (processEvents initState [InEvent.connect_error "x", InEvent.disconnect]).connected
      = ConnStatus.errored ∧
    ConnStatus.errored ≠ ConnStatus.disconnected := by
  decide

/-- C8 (amended): processing a disconnect event sets only the connected
flag to false, leaving OrderbookSnapshot, AnalyticsResult, ErrorMessage
and Parameters unchanged; the displayed status becomes disconnected
exactly when no truthy ErrorMessage is retained (a null or empty message
is falsy under the JS `if (error)` check), and stays errored otherwise. -/
theorem C8_disconnect_effect (s : AppState) :
    processEvent s InEvent.disconnect = { s with connected := false } ∧
    getStatusClass (processEvent s InEvent.disconnect).error
      (processEvent s InEvent.disconnect).connected
      = (if truthy s.error then ConnStatus.errored else ConnStatus.disconnected) := by
  refine ⟨rfl, ?_⟩
  show getStatusClass s.error false = _
  cases s.error <;> rfl

/-- C9: an `orderbook_update` replaces only OrderbookSnapshot and an
`analytics_update` replaces only AnalyticsResult — the record equalities
show every other field (connected flag, ErrorMessage, Parameters, the
other snapshot) unchanged — and neither changes the displayed status. -/
theorem C9_data_event_frame (d : OrderbookData) (a : AnalyticsResult) (s : AppState) :
    processEvent s (InEvent.orderbook_update d) = { s with orderbook := some d } ∧
    processEvent s (InEvent.analytics_update a) = { s with analyticsResult := some a } ∧
    getStatusClass (processEvent s (InEvent.orderbook_update d)).error
      (processEvent s (InEvent.orderbook_update d)).connected
      = getStatusClass s.error s.connected ∧
    getStatusClass (processEvent s (InEvent.analytics_update a)).error
      (processEvent s (InEvent.analytics_update a)).connected
      = getStatusClass s.error s.connected :=
  ⟨rfl, rfl, rfl, rfl⟩

/-- C10: rendering the parameter-editing view with connected = false
yields exactly the six named form controls, all disabled, and shows the
disconnected notice — so no local parameter edit can be initiated through
the UI while disconnected. -/
theorem C10_disabled_when_disconnected :
    ((renderInputPanel false).1.map FormControl.name)
      = ["exchange", "symbol", "order_type", "quantity", "volatility", "fee_tier"] ∧
    (renderInputPanel false).1.all FormControl.disabled = true ∧
    (renderInputPanel false).2 = true := by
  decide
